import Mathlib

/-!
Shallow embedding of the Notion endpoint catalogue
(`apps/integrations/src/integrations/notion/endpoints/specs.ts`) and of the
endpoint resolver / response classifier contract that consumes it.

The repository fragment contains only the declarative endpoint data; the
engine operating on it (`resolveRequest` / `classifyResponse`, the
`EndpointSpec` type from `core/endpoint/types`, and the shared parameter
constants from `./schemas/params`) is referenced but not among the provided
files.  Those parts are modelled from the specification and are marked
`Modelled from the spec:` in their doc comments.  Everything else is a direct
translation of the TypeScript source.

Braces never appear literally in this file; the characters U+007B and U+007D
are written as `Char.ofNat 123` / `Char.ofNat 125` and as `\x7b` / `\x7d`
inside string literals.
-/

namespace NotionSpecs

/-- HTTP methods, the fixed enumeration used by endpoint descriptors. -/
inductive HttpMethod where
  | GET
  | POST
  | PATCH
  | PUT
  | DELETE
deriving DecidableEq

/-- Parameter locations: the `in` field of a parameter descriptor
(`"path" | "query" | "header"` in the source). -/
inductive ParamLocation where
  | path
  | query
  | header
deriving DecidableEq

/-- Value-shape kinds appearing in the declared parameter schemas
(`type: "string"`, `type: "integer"`, `type: "array", items: ...`). -/
inductive SchemaType where
  | string
  | integer
  | array (items : SchemaType)
deriving DecidableEq

/-- A parameter descriptor.  The source field `in` is a Lean keyword, so it is
called `location` here, following the specification's name for it. -/
structure ParameterDescriptor where
  name : String
  location : ParamLocation
  description : String
  schema : SchemaType
  required : Bool
deriving DecidableEq

/-- One response branch: a predicate over the observed outcome (status code
and body), a success flag, diagnostic name and description, and the (opaque)
schema of the body when this branch matches.  The body type is a parameter
`β` because the catalogue's predicates read only the status code. -/
structure EndpointSpecResponse (β : Type) where
  «matches» : Nat → β → Bool
  success : Bool
  name : String
  description : String
  schema : String

/-- Display properties from endpoint metadata. -/
structure DisplayProperties where
  title : String
deriving DecidableEq

/-- External documentation pointer from endpoint metadata. -/
structure ExternalDocs where
  description : String
  url : String
deriving DecidableEq

/-- Endpoint metadata block. -/
structure EndpointMetadata where
  name : String
  description : String
  displayProperties : DisplayProperties
  externalDocs : ExternalDocs
  tags : List String
deriving DecidableEq

/-- Security block (all catalogue entries use `oauth: []`). -/
structure SecuritySpec where
  oauth : List String
deriving DecidableEq

/-- Request body declaration: the (opaque) schema of the expected body. -/
structure RequestBodyDescriptor where
  schema : String
deriving DecidableEq

/-- Static request declaration: fixed headers and an optional body schema. -/
structure RequestDescriptor where
  headers : List (String × String)
  body : Option RequestBodyDescriptor
deriving DecidableEq

/-- An endpoint descriptor, mirroring the `EndpointSpec` type the catalogue
is declared against. -/
structure EndpointSpec (β : Type) where
  path : String
  method : HttpMethod
  metadata : EndpointMetadata
  security : SecuritySpec
  parameters : List ParameterDescriptor
  request : RequestDescriptor
  responses : List (EndpointSpecResponse β)

/-- Opaque schema name imported in the source (`./schemas/endpoints/getUser`). -/
def GetUserResponse : String := "GetUserResponse"

/-- Opaque schema name imported in the source (`./schemas/endpoints/listUsers`). -/
def ListUsersResponse : String := "ListUsersResponse"

/-- Opaque schema name imported in the source (`./schemas/endpoints/me`). -/
def GetSelfResponse : String := "GetSelfResponse"

/-- Opaque schema name imported in the source (`./schemas/endpoints/getPage`). -/
def GetPageResponse : String := "GetPageResponse"

/-- Opaque schema name imported in the source (`./schemas/endpoints/createPage`). -/
def CreatePageResponse : String := "CreatePageResponse"

/-- Opaque schema name imported in the source (`./schemas/endpoints/createPage`). -/
def CreatePageParameters : String := "CreatePageParameters"

/-- Opaque schema name imported in the source (`./schemas/endpoints/updatePage`). -/
def UpdatePageResponse : String := "UpdatePageResponse"

/-- Opaque schema name imported in the source (`./schemas/endpoints/updatePage`). -/
def UpdatePageParameters : String := "UpdatePageParameters"

/-- Opaque schema name imported in the source (`./schemas/endpoints/search`). -/
def SearchResponse : String := "SearchResponse"

/-- Opaque schema name imported in the source (`./schemas/endpoints/search`). -/
def SearchParameters : String := "SearchParameters"

/-- Shared error response branch of the catalogue: matches exactly when the
status code is outside [200, 300).  Source predicate:
`({ statusCode }) => statusCode < 200 || statusCode >= 300`. -/
def errorResponse {β : Type} : EndpointSpecResponse β where
  «matches» := fun statusCode _ => decide (statusCode < 200) || decide (300 ≤ statusCode)
  success := false
  name := "Error"
  description := "Error response"
  schema := "\x7b\x7d"

/-- Modelled from the spec: `VersionHeaderParam` is imported from
`./schemas/params`, which is not among the provided files.  It is the shared
required header parameter carrying the API version. -/
def VersionHeaderParam : ParameterDescriptor where
  name := "Notion-Version"
  location := ParamLocation.header
  description := "The version of the API to use"
  schema := SchemaType.string
  required := true

/-- Modelled from the spec: `PageIdParam` is imported from `./schemas/params`,
which is not among the provided files.  Per the invariant that every path
placeholder corresponds to exactly one required path-location parameter, it is
the required path parameter named `page_id`. -/
def PageIdParam : ParameterDescriptor where
  name := "page_id"
  location := ParamLocation.path
  description := "The ID of the page"
  schema := SchemaType.string
  required := true

/-- The `getUser` endpoint descriptor. -/
def getUser (β : Type) : EndpointSpec β where
  path := "/users/\x7buser_id\x7d"
  method := HttpMethod.GET
  metadata := {
    name := "getUser"
    description := "Get a user\x27s information"
    displayProperties := { title := "Get user info for user id $\x7bparameters.user_id\x7d" }
    externalDocs := {
      description := "API method documentation"
      url := "https://developers.notion.com/reference/get-user"
    }
    tags := ["users"]
  }
  security := { oauth := [] }
  parameters := [
    { name := "user_id"
      location := ParamLocation.path
      description := "ID of the user you would like info about"
      schema := SchemaType.string
      required := true },
    VersionHeaderParam
  ]
  request := { headers := [], body := none }
  responses := [
    { «matches» := fun statusCode _ => decide (200 ≤ statusCode) && decide (statusCode < 300)
      success := true
      name := "Success"
      description := "Typical success response"
      schema := GetUserResponse },
    errorResponse
  ]

/-- The `listUsers` endpoint descriptor. -/
def listUsers (β : Type) : EndpointSpec β where
  path := "/users"
  method := HttpMethod.GET
  metadata := {
    name := "listUsers"
    description := "Returns a paginated list of Users for the workspace. The response may contain fewer than page_size of results."
    displayProperties := { title := "List users" }
    externalDocs := {
      description := "API method documentation"
      url := "https://developers.notion.com/reference/get-users"
    }
    tags := ["users"]
  }
  security := { oauth := [] }
  parameters := [
    VersionHeaderParam,
    { name := "start_cursor"
      location := ParamLocation.query
      description := "The cursor to start from. If not provided, the default is to start from the beginning of the list."
      schema := SchemaType.string
      required := false },
    { name := "page_size"
      location := ParamLocation.query
      description := "The number of results to return. The maximum is 100."
      schema := SchemaType.integer
      required := false }
  ]
  request := { headers := [], body := none }
  responses := [
    { «matches» := fun statusCode _ => decide (200 ≤ statusCode) && decide (statusCode < 300)
      success := true
      name := "Success"
      description := "Typical success response"
      schema := ListUsersResponse },
    errorResponse
  ]

/-- The `getBotInfo` endpoint descriptor. -/
def getBotInfo (β : Type) : EndpointSpec β where
  path := "/users/me"
  method := HttpMethod.GET
  metadata := {
    name := "getBotInfo"
    description := "Get\x27s the bots info"
    displayProperties := { title := "Get the bot\x27s info" }
    externalDocs := {
      description := "API method documentation"
      url := "https://developers.notion.com/reference/get-users"
    }
    tags := ["users"]
  }
  security := { oauth := [] }
  parameters := [VersionHeaderParam]
  request := { headers := [], body := none }
  responses := [
    { «matches» := fun statusCode _ => decide (200 ≤ statusCode) && decide (statusCode < 300)
      success := true
      name := "Success"
      description := "Typical success response"
      schema := GetSelfResponse },
    errorResponse
  ]

/-- The `getPage` endpoint descriptor. -/
def getPage (β : Type) : EndpointSpec β where
  path := "/pages/\x7bpage_id\x7d"
  method := HttpMethod.GET
  metadata := {
    name := "getPage"
    description := "Retrieves a Page object using the ID specified."
    displayProperties := { title := "Get the page info for page id $\x7bparameters.page_id\x7d" }
    externalDocs := {
      description := "API method documentation"
      url := "https://developers.notion.com/reference/retrieve-a-page"
    }
    tags := ["pages"]
  }
  security := { oauth := [] }
  parameters := [
    PageIdParam,
    VersionHeaderParam,
    { name := "filter_properties"
      location := ParamLocation.query
      description := "The properties to filter by"
      schema := SchemaType.array SchemaType.string
      required := false }
  ]
  request := { headers := [], body := none }
  responses := [
    { «matches» := fun statusCode _ => decide (200 ≤ statusCode) && decide (statusCode < 300)
      success := true
      name := "Success"
      description := "Typical success response"
      schema := GetPageResponse },
    errorResponse
  ]

/-- The `createPage` endpoint descriptor. -/
def createPage (β : Type) : EndpointSpec β where
  path := "/pages"
  method := HttpMethod.POST
  metadata := {
    name := "createPage"
    description := "Creates a new page that is a child of an existing page or database. If the parent is a page then `title` is the only valid property. If the parent is a database then the `properties` must match the parent database\x27s properties."
    displayProperties := { title := "Create a page" }
    externalDocs := {
      description := "API method documentation"
      url := "https://developers.notion.com/reference/post-page"
    }
    tags := ["pages"]
  }
  security := { oauth := [] }
  parameters := [VersionHeaderParam]
  request := {
    headers := [("Content-Type", "application/json")]
    body := some { schema := CreatePageParameters }
  }
  responses := [
    { «matches» := fun statusCode _ => decide (200 ≤ statusCode) && decide (statusCode < 300)
      success := true
      name := "Success"
      description := "Typical success response"
      schema := CreatePageResponse },
    errorResponse
  ]

/-- The `updatePage` endpoint descriptor. -/
def updatePage (β : Type) : EndpointSpec β where
  path := "/pages/\x7bpage_id\x7d"
  method := HttpMethod.PATCH
  metadata := {
    name := "updatePage"
    description := "Update a page icon, cover or archived status. You can update a database page\x27s properties but the properties must match the parent database schema."
    displayProperties := { title := "Update page $\x7bparameters.page_id\x7d" }
    externalDocs := {
      description := "API method documentation"
      url := "https://developers.notion.com/reference/patch-page"
    }
    tags := ["pages"]
  }
  security := { oauth := [] }
  parameters := [PageIdParam, VersionHeaderParam]
  request := {
    headers := [("Content-Type", "application/json")]
    body := some { schema := UpdatePageParameters }
  }
  responses := [
    { «matches» := fun statusCode _ => decide (200 ≤ statusCode) && decide (statusCode < 300)
      success := true
      name := "Success"
      description := "Typical success response"
      schema := UpdatePageResponse },
    errorResponse
  ]

/-- The `search` endpoint descriptor. -/
def search (β : Type) : EndpointSpec β where
  path := "/search"
  method := HttpMethod.POST
  metadata := {
    name := "search"
    description := "Searches all original pages, databases, and child pages/databases that are shared with the integration. It will not return linked databases, since these duplicate their source databases."
    displayProperties := { title := "Search for $\x7bbody.query\x7d" }
    externalDocs := {
      description := "API method documentation"
      url := "https://developers.notion.com/reference/post-search"
    }
    tags := ["search"]
  }
  security := { oauth := [] }
  parameters := [VersionHeaderParam]
  request := {
    headers := []
    body := some { schema := SearchParameters }
  }
  responses := [
    { «matches» := fun statusCode _ => decide (200 ≤ statusCode) && decide (statusCode < 300)
      success := true
      name := "Success"
      description := "Typical success response"
      schema := SearchResponse },
    errorResponse
  ]

/-- All endpoint descriptors exported from `specs.ts`, in declaration order. -/
def allEndpoints (β : Type) : List (EndpointSpec β) :=
  [getUser β, listUsers β, getBotInfo β, getPage β, createPage β, updatePage β, search β]

/-- Error raised by `classifyResponse` when no response branch matches. -/
inductive ClassifyError where
  | noMatchingResponse
deriving DecidableEq

/-- The selected response branch together with the raw outcome that
triggered the match. -/
structure ClassifiedResponse (β : Type) where
  descriptor : EndpointSpecResponse β
  statusCode : Nat
  body : β

/-- Modelled from the spec: `classifyResponse` (the response-classification
half of the endpoint engine, not among the provided files) iterates the
descriptor's `responses` in declared order and returns the first branch whose
`matches` predicate accepts the observed status code and body, failing with
`NoMatchingResponseError` when none does. -/
def classifyResponse {β : Type} (d : EndpointSpec β) (statusCode : Nat) (body : β) :
    Except ClassifyError (ClassifiedResponse β) :=
  match d.responses.find? (fun r => r.matches statusCode body) with
  | some r => Except.ok ⟨r, statusCode, body⟩
  | none => Except.error ClassifyError.noMatchingResponse

/-- Modelled from the spec: `NoMatchingResponseError` is treated as
fatal/non-retryable by this layer, since retrying the same network call would
reproduce the same unmatched status. -/
def isRetryable : ClassifyError → Bool
  | ClassifyError.noMatchingResponse => false

/-- The left-brace character U+007B, written without a literal brace. -/
def lbrace : Char := Char.ofNat 123

/-- The right-brace character U+007D, written without a literal brace. -/
def rbrace : Char := Char.ofNat 125

/-- A caller-supplied parameter value: a string, an integer, or an array of
values (the declared schemas only ever nest scalars inside arrays). -/
inductive ParamValue where
  | str (s : String)
  | int (i : Int)
  | arr (vs : List ParamValue)

/-- Caller-supplied inputs for one call: a mapping from parameter name to
value plus an optional body value. -/
structure RequestInputs where
  params : List (String × ParamValue)
  body : Option ParamValue

/-- Look up the value supplied for a parameter name. -/
def lookupParam (i : RequestInputs) (n : String) : Option ParamValue :=
  (i.params.find? (fun kv => decide (kv.1 = n))).map (fun kv => kv.2)

/-- Modelled from the spec: kind-level conformance of a supplied value to a
declared schema kind (e.g. a non-integer value for an integer-typed parameter
does not conform). -/
def conforms (v : ParamValue) (t : SchemaType) : Bool :=
  match v, t with
  | ParamValue.str _, SchemaType.string => true
  | ParamValue.int _, SchemaType.integer => true
  | ParamValue.arr _, SchemaType.array _ => true
  | _, _ => false

/-- String form of a scalar value; arrays are handled by `stringForm`. -/
def stringFormAtom : ParamValue → String
  | ParamValue.str s => s
  | ParamValue.int i => toString i
  | ParamValue.arr _ => ""

/-- Modelled from the spec: the string form of a parameter value used when
substituting and serialising; an array (always an array of scalars in the
declared schemas) joins the string forms of its elements with commas. -/
def stringForm : ParamValue → String
  | ParamValue.arr vs => String.intercalate "," (vs.map stringFormAtom)
  | v => stringFormAtom v

/-- JSON-style form of a scalar value; arrays are handled by
`serializeValue`. -/
def serializeAtom : ParamValue → String
  | ParamValue.str s => "\x22" ++ s ++ "\x22"
  | ParamValue.int i => toString i
  | ParamValue.arr _ => ""

/-- Modelled from the spec: the serialised body placed in the resolved
request. -/
def serializeValue : ParamValue → String
  | ParamValue.arr vs => "[" ++ String.intercalate "," (vs.map serializeAtom) ++ "]"
  | v => serializeAtom v

/-- Characters that URL escaping leaves untouched (RFC 3986 unreserved). -/
def isUnreserved (c : Char) : Bool :=
  c.isAlphanum || decide (c = '-') || decide (c = '_') || decide (c = '.') || decide (c = '~')

/-- Hexadecimal digit characters, for percent-encoding. -/
def hexDigit : Nat → Char
  | 0 => '0'
  | 1 => '1'
  | 2 => '2'
  | 3 => '3'
  | 4 => '4'
  | 5 => '5'
  | 6 => '6'
  | 7 => '7'
  | 8 => '8'
  | 9 => '9'
  | 10 => 'A'
  | 11 => 'B'
  | 12 => 'C'
  | 13 => 'D'
  | 14 => 'E'
  | 15 => 'F'
  | _ => '0'

/-- Percent-encode one character (unreserved characters pass through). -/
def escapeChar (c : Char) : List Char :=
  if isUnreserved c then [c]
  else ['%', hexDigit (c.toNat / 16 % 16), hexDigit (c.toNat % 16)]

/-- Percent-encode a character sequence. -/
def escapeChars (l : List Char) : List Char :=
  (l.map escapeChar).flatten

/-- Modelled from the spec: the URL-escaped string form of a value. -/
def urlEscape (s : String) : String :=
  String.mk (escapeChars s.data)

/-- Errors produced while interpolating a path template. -/
inductive PathError where
  | strayBrace
  | noValue (name : String)
deriving DecidableEq

/-- Scan a placeholder body up to the closing brace, returning the placeholder
name characters and the remainder of the template. -/
def splitPlaceholder : List Char → Option (List Char × List Char)
  | [] => none
  | c :: rest =>
    if c = rbrace then some ([], rest)
    else match splitPlaceholder rest with
      | some (n, r) => some (c :: n, r)
      | none => none

/-- Fuel-indexed core of path interpolation: replaces every placeholder with
the value produced by `look`, fails on a stray brace or a placeholder without
a value.  The fuel is a structural-recursion device; `substPath` supplies
enough for any input. -/
def substPathAux (look : String → Option String) : Nat → List Char → Except PathError (List Char)
  | 0, _ => Except.error PathError.strayBrace
  | _ + 1, [] => Except.ok []
  | fuel + 1, c :: rest =>
    if c = lbrace then
      match splitPlaceholder rest with
      | none => Except.error PathError.strayBrace
      | some (n, r) =>
        match look (String.mk n) with
        | none => Except.error (PathError.noValue (String.mk n))
        | some v =>
          match substPathAux look fuel r with
          | Except.ok t => Except.ok (v.data ++ t)
          | Except.error e => Except.error e
    else if c = rbrace then Except.error PathError.strayBrace
    else
      match substPathAux look fuel rest with
      | Except.ok t => Except.ok (c :: t)
      | Except.error e => Except.error e

/-- Modelled from the spec: substitute each placeholder of a path template
using `look`. -/
def substPath (look : String → Option String) (l : List Char) : Except PathError (List Char) :=
  substPathAux look (l.length + 1) l

/-- Validation failures raised by `resolveRequest`. -/
inductive ValidationError where
  | missingParameter (name : String)
  | unknownParameter (name : String)
  | schemaMismatch (name : String)
  | bodyMismatch
  | unresolvedPlaceholder (name : String)
  | malformedPath
deriving DecidableEq

/-- A concrete request: method, fully interpolated path (with the query
string appended), header mapping, and optional serialised body. -/
structure ResolvedRequest where
  method : HttpMethod
  path : String
  headers : List (String × String)
  body : Option String
deriving DecidableEq

/-- First declared required parameter that has no supplied value. -/
def firstMissingRequired (ps : List ParameterDescriptor) (i : RequestInputs) : Option String :=
  (ps.find? (fun p => p.required && (lookupParam i p.name).isNone)).map (fun p => p.name)

/-- First supplied entry whose name is not declared by the descriptor. -/
def firstUnknown (ps : List ParameterDescriptor) (i : RequestInputs) : Option String :=
  (i.params.find? (fun kv => !(ps.any (fun p => decide (p.name = kv.1))))).map (fun kv => kv.1)

/-- First declared parameter whose supplied value does not conform to its
declared schema kind. -/
def firstSchemaMismatch (ps : List ParameterDescriptor) (i : RequestInputs) : Option String :=
  (ps.find? (fun p =>
    match lookupParam i p.name with
    | some v => !(conforms v p.schema)
    | none => false)).map (fun p => p.name)

/-- Lookup used for path interpolation: the URL-escaped string form of the
value supplied for the path-location parameter of the given name. -/
def pathLookup (d : EndpointSpec β) (i : RequestInputs) (n : String) : Option String :=
  match d.parameters.find? (fun p => decide (p.name = n) && decide (p.location = ParamLocation.path)) with
  | some p => (lookupParam i p.name).map (fun v => urlEscape (stringForm v))
  | none => none

/-- Query fragments, one per declared query parameter with a supplied value,
in declaration order: escaped name, equals sign, escaped value. -/
def queryParts (d : EndpointSpec β) (i : RequestInputs) : List (List Char) :=
  d.parameters.filterMap (fun p =>
    if p.location = ParamLocation.query then
      (lookupParam i p.name).map (fun v =>
        escapeChars p.name.data ++ '=' :: escapeChars (stringForm v).data)
    else none)

/-- Join query fragments with ampersands. -/
def joinAmp : List (List Char) → List Char
  | [] => []
  | [x] => x
  | x :: xs => x ++ '&' :: joinAmp xs

/-- The query-string characters: empty, or a question mark followed by the
ampersand-joined fragments. -/
def queryChars (parts : List (List Char)) : List Char :=
  match parts with
  | [] => []
  | _ => '?' :: joinAmp parts

/-- Insert a header, overwriting an existing entry with the same name. -/
def insertHeader (hs : List (String × String)) (k v : String) : List (String × String) :=
  if hs.any (fun kv => decide (kv.1 = k)) then
    hs.map (fun kv => if kv.1 = k then (k, v) else kv)
  else hs ++ [(k, v)]

/-- Header mapping derived from declared header parameters with supplied
values, in declaration order. -/
def paramHeaders (d : EndpointSpec β) (i : RequestInputs) : List (String × String) :=
  d.parameters.filterMap (fun p =>
    if p.location = ParamLocation.header then
      (lookupParam i p.name).map (fun v => (p.name, stringForm v))
    else none)

/-- Merged headers: parameter-derived headers first, then the descriptor's
static headers applied after them (static headers win on collision). -/
def mergedHeaders (d : EndpointSpec β) (i : RequestInputs) : List (String × String) :=
  d.request.headers.foldl (fun acc kv => insertHeader acc kv.1 kv.2) (paramHeaders d i)

/-- Modelled from the spec: `resolveRequest` (the request-resolution half of
the endpoint engine, not among the provided files).  It validates the inputs
against the descriptor (required parameters present, no unknown parameter
names, values conforming to their declared schema kinds, body present exactly
when the descriptor declares one), substitutes each path placeholder with the
URL-escaped string form of the matching path parameter's value, appends the
declared query parameters with supplied values in declaration order, and
merges parameter-derived headers with the descriptor's static headers (static
headers applied after).  It is a pure function: no I/O, no ambient state. -/
def resolveRequest (d : EndpointSpec β) (i : RequestInputs) : Except ValidationError ResolvedRequest :=
  match firstMissingRequired d.parameters i with
  | some n => Except.error (ValidationError.missingParameter n)
  | none =>
    match firstUnknown d.parameters i with
    | some n => Except.error (ValidationError.unknownParameter n)
    | none =>
      match firstSchemaMismatch d.parameters i with
      | some n => Except.error (ValidationError.schemaMismatch n)
      | none =>
        if i.body.isSome ≠ d.request.body.isSome then
          Except.error ValidationError.bodyMismatch
        else
          match substPath (pathLookup d i) d.path.data with
          | Except.error PathError.strayBrace => Except.error ValidationError.malformedPath
          | Except.error (PathError.noValue n) => Except.error (ValidationError.unresolvedPlaceholder n)
          | Except.ok chars =>
            Except.ok
              { method := d.method
                path := String.mk (chars ++ queryChars (queryParts d i))
                headers := mergedHeaders d i
                body := i.body.map serializeValue }

/-- Fuel-indexed extraction of the placeholder names of a path template, in
order; fails on a stray brace. -/
def placeholdersAux : Nat → List Char → Option (List String)
  | 0, _ => none
  | _ + 1, [] => some []
  | fuel + 1, c :: rest =>
    if c = lbrace then
      match splitPlaceholder rest with
      | none => none
      | some (n, r) =>
        match placeholdersAux fuel r with
        | some t => some (String.mk n :: t)
        | none => none
    else if c = rbrace then none
    else placeholdersAux fuel rest

/-- Placeholder names of a path template, in order of appearance. -/
def pathPlaceholders (p : String) : Option (List String) :=
  placeholdersAux (p.data.length + 1) p.data

/-- A descriptor satisfies the placeholder invariant when its path template
is well formed and every placeholder name corresponds to exactly one declared
parameter with path location and the required flag set. -/
def placeholderWellFormed (d : EndpointSpec β) : Bool :=
  match pathPlaceholders d.path with
  | none => false
  | some ns =>
    ns.all (fun n =>
      (d.parameters.filter (fun p =>
        decide (p.name = n) && decide (p.location = ParamLocation.path) && p.required)).length = 1)

/-- Modelled from the spec: descriptor construction fails fast when the
placeholder invariant is violated, so a malformed descriptor never reaches
call time. -/
def checkConstruct (d : EndpointSpec β) : Except String (EndpointSpec β) :=
  if placeholderWellFormed d then Except.ok d
  else Except.error ("path placeholder without exactly one required path parameter")

/-- Modelled from the spec: an ambient environment (clock and random seed)
that an impure implementation could observe.  The resolver reads none of it;
`resolveRequestIn` exposes it explicitly so independence can be stated. -/
structure AmbientEnv where
  now : Nat
  seed : Nat

/-- Request resolution in an explicit ambient environment; the environment is
not consulted, matching the contract that the operation performs no I/O and
reads no ambient time or randomness. -/
def resolveRequestIn {β : Type} (_e : AmbientEnv) (d : EndpointSpec β) (i : RequestInputs) :
    Except ValidationError ResolvedRequest :=
  resolveRequest d i

/-- Test fixture from the specification's order-sensitivity scenario: a
response branch whose predicate is always true. -/
def respFirst : EndpointSpecResponse Unit where
  «matches» := fun _ _ => true
  success := true
  name := "First"
  description := "always matches"
  schema := ""

/-- Test fixture: a second response branch whose predicate is always true. -/
def respSecond : EndpointSpecResponse Unit where
  «matches» := fun _ _ => true
  success := true
  name := "Second"
  description := "always matches"
  schema := ""

/-- Minimal metadata for test fixtures. -/
def fixtureMetadata (n : String) : EndpointMetadata where
  name := n
  description := "test fixture"
  displayProperties := { title := n }
  externalDocs := { description := "", url := "" }
  tags := []

/-- Test fixture: a descriptor with two always-true matchers, first order. -/
def orderTestAB : EndpointSpec Unit where
  path := "/order"
  method := HttpMethod.GET
  metadata := fixtureMetadata ("orderTestAB")
  security := { oauth := [] }
  parameters := []
  request := { headers := [], body := none }
  responses := [respFirst, respSecond]

/-- Test fixture: the same two always-true matchers, opposite order. -/
def orderTestBA : EndpointSpec Unit where
  path := "/order"
  method := HttpMethod.GET
  metadata := fixtureMetadata ("orderTestBA")
  security := { oauth := [] }
  parameters := []
  request := { headers := [], body := none }
  responses := [respSecond, respFirst]

/-- Test fixture from the specification's no-match scenario: a deliberately
malformed descriptor whose only response branch matches 2xx codes. -/
def malformedNoCatchAll : EndpointSpec Unit where
  path := "/malformed"
  method := HttpMethod.GET
  metadata := fixtureMetadata ("malformedNoCatchAll")
  security := { oauth := [] }
  parameters := []
  request := { headers := [], body := none }
  responses := [
    { «matches» := fun statusCode _ => decide (200 ≤ statusCode) && decide (statusCode < 300)
      success := true
      name := "Success"
      description := "Typical success response"
      schema := "" }
  ]

/-- Test fixture: a descriptor violating the placeholder invariant (its path
has a placeholder but it declares no parameters at all). -/
def badPlaceholderEndpoint : EndpointSpec Unit where
  path := "/users/\x7buser_id\x7d"
  method := HttpMethod.GET
  metadata := fixtureMetadata ("badPlaceholderEndpoint")
  security := { oauth := [] }
  parameters := []
  request := { headers := [], body := none }
  responses := [errorResponse]

/-- Test fixture: empty request inputs. -/
def emptyInputs : RequestInputs where
  params := []
  body := none

/-- Test fixture: inputs supplying both of the getUser parameters. -/
def exampleInputs : RequestInputs where
  params := [("user_id", ParamValue.str ("abc-123")), ("Notion-Version", ParamValue.str ("2022-06-28"))]
  body := none

/-- Test fixture: the request that `exampleInputs` resolves to on `getUser`. -/
def exampleResolved : ResolvedRequest where
  method := HttpMethod.GET
  path := "/users/abc-123"
  headers := [("Notion-Version", "2022-06-28")]
  body := none

/-- The predicate a first-match search satisfies: if position `i` matches and
every earlier position does not, `find?` returns the element at `i`. -/
theorem find?_eq_some_of_first {α : Type} (p : α → Bool) :
    ∀ (l : List α) (i : Nat) (hi : i < l.length),
      p (l.get ⟨i, hi⟩) = true →
      (∀ j (hj : j < i), p (l.get ⟨j, Nat.lt_trans hj hi⟩) = false) →
      l.find? p = some (l.get ⟨i, hi⟩) := by
  intro l
  induction l with
  | nil => intro i hi; exact absurd hi (Nat.not_lt_zero i)
  | cons a t ih =>
    intro i hi hp hearly
    cases i with
    | zero =>
      exact List.find?_cons_of_pos t hp
    | succ j =>
      have ha : p a = false := hearly 0 (Nat.succ_pos j)
      have hj : j < t.length := Nat.lt_of_succ_lt_succ hi
      have := ih j hj hp (fun k hk => hearly (k + 1) (Nat.succ_lt_succ hk))
      rw [List.find?_cons_of_neg t (by simp [ha])]
      exact this

/-- Claim C1: for every descriptor, status code and body, `classifyResponse`
returns the first response branch in declared order whose `matches` predicate
accepts the outcome; in particular, when two branches both match, the
earlier-declared one is selected. -/
theorem classifyResponse_first_match_wins {β : Type} (d : EndpointSpec β) (s : Nat) (b : β)
    (i : Nat) (hi : i < d.responses.length)
    (hm : (d.responses.get ⟨i, hi⟩).«matches» s b = true)
    (hearly : ∀ j (hj : j < i), (d.responses.get ⟨j, Nat.lt_trans hj hi⟩).«matches» s b = false) :
    classifyResponse d s b = Except.ok ⟨d.responses.get ⟨i, hi⟩, s, b⟩ := by
  unfold classifyResponse
  rw [find?_eq_some_of_first (fun r => r.«matches» s b) d.responses i hi hm hearly]

/-- Witness for C1: with two always-true matchers, the first-declared branch
is chosen in both declaration orders (the specification's order test). -/
theorem classifyResponse_first_match_wins_witness :
    classifyResponse orderTestAB 200 () = Except.ok ⟨respFirst, 200, ()⟩ ∧
    classifyResponse orderTestBA 200 () = Except.ok ⟨respSecond, 200, ()⟩ := by
  constructor
  · exact classifyResponse_first_match_wins orderTestAB 200 () 0 (by decide) rfl
      (fun j hj => absurd hj (Nat.not_lt_zero j))
  · exact classifyResponse_first_match_wins orderTestBA 200 () 0 (by decide) rfl
      (fun j hj => absurd hj (Nat.not_lt_zero j))

/-- The classification names produced for a status code equal the expected
singleton: the Success branch on 2xx, the Error branch otherwise.  A
singleton filter result means exactly one branch matched. -/
def classifiesUniquely (e : EndpointSpec Unit) (s : Nat) : Bool :=
  decide (((e.responses.filter (fun r => r.«matches» s ())).map (fun r => r.name)) =
    (if 200 ≤ s ∧ s < 300 then ["Success"] else ["Error"]))

set_option maxRecDepth 4000 in
/-- Claim C2: for every endpoint exported from specs.ts and every status code
in [100, 599], exactly one response branch matches: the Success branch on
2xx codes and the error branch otherwise. -/
theorem exactly_one_branch_matches :
    ∀ s, s < 600 → 100 ≤ s → (allEndpoints Unit).all (fun e => classifiesUniquely e s) = true := by
  decide

/-- Witness for C2 at status code 204. -/
theorem exactly_one_branch_matches_witness :
    (allEndpoints Unit).all (fun e => classifiesUniquely e 204) = true :=
  exactly_one_branch_matches 204 (by decide) (by decide)

/-- Whether the last response branch of an endpoint matches a status code. -/
def lastMatches (e : EndpointSpec Unit) (s : Nat) : Bool :=
  ((e.responses.getLast?).map (fun r => r.«matches» s ())).getD false

/-- Counterexample to C4 as stated: 200 lies in [100, 599], yet the last
response branch of `getUser` (the shared error branch) does not match it, so
the final branch is not an unconditional catch-all. -/
theorem last_branch_not_unconditional :
    (100 ≤ 200 ∧ 200 ≤ 599) ∧ lastMatches (getUser Unit) 200 = false := by
  decide

/-- The last response branch matches a status code exactly when no earlier
branch does. -/
def lastCatchesUnmatched (e : EndpointSpec Unit) (s : Nat) : Bool :=
  match e.responses.getLast? with
  | none => false
  | some r => r.«matches» s () == e.responses.dropLast.all (fun q => !(q.«matches» s ()))

set_option maxRecDepth 4000 in
/-- Claim C4 (amended): for every endpoint exported from specs.ts, the last
entry of its responses list is a catch-all for otherwise-unclassified status
codes: over [100, 599] it matches exactly the codes that no earlier branch
matches (here, every code outside [200, 300)); it is not unconditional, since
it returns false on the 2xx codes the Success branch matches. -/
theorem last_branch_catches_unmatched :
    ∀ s, s < 600 → 100 ≤ s → (allEndpoints Unit).all (fun e => lastCatchesUnmatched e s) = true := by
  decide

/-- Witness for the amended C4 at status code 150. -/
theorem last_branch_catches_unmatched_witness :
    (allEndpoints Unit).all (fun e => lastCatchesUnmatched e 150) = true :=
  last_branch_catches_unmatched 150 (by decide) (by decide)

/-- Claim C6: when no response branch of a descriptor matches the observed
status code, `classifyResponse` fails with `NoMatchingResponseError`, and
that error is non-retryable at this layer. -/
theorem no_match_is_fatal {β : Type} (d : EndpointSpec β) (s : Nat) (b : β)
    (h : ∀ r, r ∈ d.responses → r.«matches» s b = false) :
    classifyResponse d s b = Except.error ClassifyError.noMatchingResponse ∧
      isRetryable ClassifyError.noMatchingResponse = false := by
  refine ⟨?_, rfl⟩
  unfold classifyResponse
  have hn : d.responses.find? (fun r => r.«matches» s b) = none :=
    List.find?_eq_none.mpr (fun x hx => by simp [h x hx])
  rw [hn]

/-- Witness for C6: the specification's no-match scenario, a malformed
descriptor with only a 2xx matcher, classified at status 500. -/
theorem no_match_is_fatal_witness :
    classifyResponse malformedNoCatchAll 500 () = Except.error ClassifyError.noMatchingResponse ∧
      isRetryable ClassifyError.noMatchingResponse = false :=
  no_match_is_fatal malformedNoCatchAll 500 () (fun r hr => by
    simp only [malformedNoCatchAll, List.mem_singleton] at hr
    subst hr
    rfl)

/-- Claim C9: `resolveRequest` is deterministic and pure: its result does not
depend on the ambient environment (clock, randomness), and two calls on the
same descriptor and inputs yield identical resolved requests. -/
theorem resolveRequest_deterministic {β : Type} (d : EndpointSpec β) (i : RequestInputs)
    (e1 e2 : AmbientEnv) :
    resolveRequestIn e1 d i = resolveRequestIn e2 d i ∧
      resolveRequest d i = resolveRequest d i :=
  ⟨rfl, rfl⟩

/-- Classification of a descriptor whose responses are a 2xx matcher followed
by the outside-2xx error matcher (the shape every catalogue endpoint uses):
the first branch is selected exactly on [200, 300), the second otherwise. -/
theorem classify_pair {β : Type} (e : EndpointSpec β) (r1 r2 : EndpointSpecResponse β)
    (hresp : e.responses = [r1, r2]) (s : Nat) (b : β)
    (h1 : r1.«matches» s b = (decide (200 ≤ s) && decide (s < 300)))
    (h2 : r2.«matches» s b = (decide (s < 200) || decide (300 ≤ s))) :
    classifyResponse e s b = Except.ok ⟨if 200 ≤ s ∧ s < 300 then r1 else r2, s, b⟩ := by
  unfold classifyResponse
  rw [hresp]
  by_cases hs : 200 ≤ s ∧ s < 300
  · have hm1 : r1.«matches» s b = true := by rw [h1]; simp [hs.1, hs.2]
    simp [List.find?_cons, hm1, hs]
  · have hm1 : r1.«matches» s b = false := by
      rw [h1]
      rcases Nat.lt_or_ge s 200 with h | h
      · simp [Nat.not_le.mpr h]
      · have hnl : ¬ s < 300 := fun hlt => hs ⟨h, hlt⟩
        simp [hnl]
    have hm2 : r2.«matches» s b = true := by
      rw [h2]
      rcases Nat.lt_or_ge s 200 with h | h
      · simp [h]
      · have h3 : 300 ≤ s := by
          rcases Nat.lt_or_ge s 300 with h4 | h4
          · exact absurd ⟨h, h4⟩ hs
          · exact h4
        simp [h3]
    simp [List.find?_cons, hm1, hm2, hs]

/-- Claim C3: on every catalogue endpoint, classification always succeeds,
the returned success flag is true exactly when the status code lies in
[200, 300), and the matched branch is named Success on 2xx and Error
otherwise (in particular 204 classifies as success and 404 as error). -/
theorem classify_success_iff_2xx {β : Type} (b : β) (e : EndpointSpec β)
    (he : e ∈ allEndpoints β) (s : Nat) :
    ∃ c, classifyResponse e s b = Except.ok c ∧
      c.descriptor.success = decide (200 ≤ s ∧ s < 300) ∧
      c.descriptor.name = (if 200 ≤ s ∧ s < 300 then "Success" else "Error") := by
  have main : ∀ (r1 r2 : EndpointSpecResponse β), e.responses = [r1, r2] →
      r1.«matches» s b = (decide (200 ≤ s) && decide (s < 300)) →
      r2.«matches» s b = (decide (s < 200) || decide (300 ≤ s)) →
      r1.success = true → r1.name = "Success" →
      r2.success = false → r2.name = "Error" →
      ∃ c, classifyResponse e s b = Except.ok c ∧
        c.descriptor.success = decide (200 ≤ s ∧ s < 300) ∧
        c.descriptor.name = (if 200 ≤ s ∧ s < 300 then "Success" else "Error") := by
    intro r1 r2 hresp h1 h2 hs1 hn1 hs2 hn2
    refine ⟨_, classify_pair e r1 r2 hresp s b h1 h2, ?_, ?_⟩
    · by_cases hs : 200 ≤ s ∧ s < 300
      · simp [hs, hs1]
      · simp [hs, hs2]
    · by_cases hs : 200 ≤ s ∧ s < 300
      · simp [hs, hn1]
      · simp [hs, hn2]
  simp only [allEndpoints, List.mem_cons, List.not_mem_nil, or_false] at he
  rcases he with rfl | rfl | rfl | rfl | rfl | rfl | rfl <;>
    exact main _ _ rfl rfl rfl rfl rfl rfl rfl

/-- Witness for C3: on getUser, status 204 classifies as the Success branch
and status 404 as the Error branch. -/
theorem classify_success_iff_2xx_witness :
    ((classifyResponse (getUser Unit) 204 ()).toOption.map
      (fun c => (c.descriptor.name, c.descriptor.success)) = some ("Success", true)) ∧
    ((classifyResponse (getUser Unit) 404 ()).toOption.map
      (fun c => (c.descriptor.name, c.descriptor.success)) = some ("Error", false)) := by
  constructor
  · obtain ⟨c, hc, hsuc, hname⟩ :=
      classify_success_iff_2xx () (getUser Unit) (by simp [allEndpoints]) 204
    have hp : 200 ≤ 204 ∧ 204 < 300 := by omega
    have hd : decide (200 ≤ 204 ∧ 204 < 300) = true := by decide
    rw [hc]
    simp [Except.toOption, hname, hsuc, hp, hd]
  · obtain ⟨c, hc, hsuc, hname⟩ :=
      classify_success_iff_2xx () (getUser Unit) (by simp [allEndpoints]) 404
    have hp : ¬ (200 ≤ 404 ∧ 404 < 300) := by omega
    have hd : decide (200 ≤ 404 ∧ 404 < 300) = false := by decide
    rw [hc]
    simp [Except.toOption, hname, hsuc, hp, hd]

/-- Claim C10: on every catalogue endpoint, every matches predicate reads
only the status code, so the selected branch is independent of the response
body: classification of the same status code with any two bodies selects the
same response descriptor. -/
theorem classification_body_independent {β : Type} (b1 b2 : β) (s : Nat)
    (e : EndpointSpec β) (he : e ∈ allEndpoints β) :
    (classifyResponse e s b1).toOption.map (fun c => c.descriptor) =
      (classifyResponse e s b2).toOption.map (fun c => c.descriptor) := by
  simp only [allEndpoints, List.mem_cons, List.not_mem_nil, or_false] at he
  rcases he with rfl | rfl | rfl | rfl | rfl | rfl | rfl <;>
    rw [classify_pair _ _ _ rfl s b1 rfl rfl, classify_pair _ _ _ rfl s b2 rfl rfl] <;> rfl

/-- Witness for C10: the search endpoint selects the same branch for two
different bodies at status 204. -/
theorem classification_body_independent_witness :
    (classifyResponse (search String) 204 "body-one").toOption.map (fun c => c.descriptor) =
      (classifyResponse (search String) 204 "body-two").toOption.map (fun c => c.descriptor) :=
  classification_body_independent "body-one" "body-two" 204 (search String)
    (by simp [allEndpoints])

/-- Claim C5: when the inputs omit a parameter the descriptor declares as
required, `resolveRequest` fails with a `ValidationError` naming a missing
required parameter (the first such in declaration order).  The operation is a
pure function, so the failure has no side effects. -/
theorem resolveRequest_missing_required {β : Type} (d : EndpointSpec β) (i : RequestInputs)
    (p : ParameterDescriptor) (hp : p ∈ d.parameters) (hreq : p.required = true)
    (hmiss : lookupParam i p.name = none) :
    ∃ n, resolveRequest d i = Except.error (ValidationError.missingParameter n) ∧
      ∃ q, q ∈ d.parameters ∧ q.name = n ∧ q.required = true ∧ lookupParam i n = none := by
  have hex : ∃ x, x ∈ d.parameters ∧ (x.required && (lookupParam i x.name).isNone) = true :=
    ⟨p, hp, by simp [hreq, hmiss]⟩
  have hsome : (d.parameters.find? (fun q => q.required && (lookupParam i q.name).isNone)).isSome :=
    List.find?_isSome.mpr hex
  obtain ⟨q, hq⟩ := Option.isSome_iff_exists.mp hsome
  have hqp := List.find?_some hq
  have hqmem := List.mem_of_find?_eq_some hq
  have hqp2 : q.required = true ∧ (lookupParam i q.name).isNone = true := by
    simpa [Bool.and_eq_true] using hqp
  have hqreq : q.required = true := hqp2.1
  have hqnone : lookupParam i q.name = none := Option.isNone_iff_eq_none.mp hqp2.2
  refine ⟨q.name, ?_, q, hqmem, rfl, hqreq, hqnone⟩
  unfold resolveRequest firstMissingRequired
  rw [hq]
  rfl

/-- Witness for C5: the specification's missing-parameter scenario, resolving
getUser with empty inputs fails naming the required parameter user_id. -/
theorem resolveRequest_missing_required_witness :
    (∃ n, resolveRequest (getUser Unit) emptyInputs = Except.error (ValidationError.missingParameter n) ∧
      ∃ q, q ∈ (getUser Unit).parameters ∧ q.name = n ∧ q.required = true ∧
        lookupParam emptyInputs n = none) ∧
    resolveRequest (getUser Unit) emptyInputs =
      Except.error (ValidationError.missingParameter ("user_id")) := by
  constructor
  · exact resolveRequest_missing_required (getUser Unit) emptyInputs
      ⟨"user_id", ParamLocation.path, "ID of the user you would like info about",
        SchemaType.string, true⟩ (by decide) rfl rfl
  · rfl

/-- Claim C8: every placeholder in a catalogue path corresponds to exactly
one declared parameter with path location and the required flag set; the
construction-time check accepts all seven endpoints (in particular the
placeholder-bearing getUser, getPage and updatePage) and rejects a violating
descriptor at construction time. -/
theorem placeholder_invariant_holds :
    (allEndpoints Unit).all (fun e => placeholderWellFormed e) = true ∧
    checkConstruct (getUser Unit) = Except.ok (getUser Unit) ∧
    checkConstruct (getPage Unit) = Except.ok (getPage Unit) ∧
    checkConstruct (updatePage Unit) = Except.ok (updatePage Unit) ∧
    checkConstruct badPlaceholderEndpoint =
      Except.error ("path placeholder without exactly one required path parameter") := by
  refine ⟨by decide, rfl, rfl, rfl, rfl⟩

/-- A character is neither the left nor the right brace. -/
def notBrace (c : Char) : Bool :=
  !(decide (c = lbrace)) && !(decide (c = rbrace))

/-- A character sequence contains no brace characters. -/
def braceFree (l : List Char) : Bool :=
  l.all notBrace

/-- Brace freedom distributes over append. -/
theorem braceFree_append (a b : List Char) :
    braceFree (a ++ b) = (braceFree a && braceFree b) :=
  List.all_append

/-- Brace freedom of a cons splits into head and tail. -/
theorem braceFree_cons (c : Char) (l : List Char) :
    braceFree (c :: l) = (notBrace c && braceFree l) :=
  List.all_cons

/-- Hexadecimal digit characters are not braces. -/
theorem hexDigit_notBrace (n : Nat) : notBrace (hexDigit n) = true := by
  unfold hexDigit
  split <;> decide

/-- Percent-encoding one character yields no braces. -/
theorem escapeChar_braceFree (c : Char) : braceFree (escapeChar c) = true := by
  unfold escapeChar
  by_cases h : isUnreserved c
  · rw [if_pos h]
    have hc1 : ¬ c = lbrace := fun e => by rw [e] at h; exact absurd h (by decide)
    have hc2 : ¬ c = rbrace := fun e => by rw [e] at h; exact absurd h (by decide)
    simp [braceFree, notBrace, hc1, hc2]
  · rw [if_neg h]
    have hp : notBrace '%' = true := by decide
    simp [braceFree, List.all_cons, hp, hexDigit_notBrace]

/-- Percent-encoding a sequence yields no braces. -/
theorem escapeChars_braceFree (l : List Char) : braceFree (escapeChars l) = true := by
  induction l with
  | nil => rfl
  | cons c t ih =>
    have hstep : escapeChars (c :: t) = escapeChar c ++ escapeChars t := by
      simp [escapeChars]
    rw [hstep, braceFree_append, escapeChar_braceFree, ih]
    rfl

/-- Path interpolation preserves brace freedom: when every value the lookup
can produce is brace-free, a successful interpolation is brace-free. -/
theorem substPathAux_braceFree (look : String → Option String)
    (hlook : ∀ n v, look n = some v → braceFree v.data = true) :
    ∀ (fuel : Nat) (l out : List Char),
      substPathAux look fuel l = Except.ok out → braceFree out = true := by
  intro fuel
  induction fuel with
  | zero =>
    intro l out h
    exact Except.noConfusion h
  | succ f ih =>
    intro l out h
    cases l with
    | nil =>
      cases h
      rfl
    | cons c rest =>
      simp only [substPathAux] at h
      by_cases hc : c = lbrace
      · rw [if_pos hc] at h
        cases hsp : splitPlaceholder rest with
        | none => rw [hsp] at h; exact Except.noConfusion h
        | some nr =>
          obtain ⟨n, r⟩ := nr
          simp only [hsp] at h
          cases hlk : look (String.mk n) with
          | none => rw [hlk] at h; exact Except.noConfusion h
          | some v =>
            simp only [hlk] at h
            cases hrec : substPathAux look f r with
            | error e => rw [hrec] at h; exact Except.noConfusion h
            | ok t =>
              simp only [hrec, Except.ok.injEq] at h
              subst h
              rw [braceFree_append, hlook (String.mk n) v hlk, ih r t hrec]
              rfl
      · rw [if_neg hc] at h
        by_cases hc2 : c = rbrace
        · rw [if_pos hc2] at h
          exact Except.noConfusion h
        · rw [if_neg hc2] at h
          cases hrec : substPathAux look f rest with
          | error e => rw [hrec] at h; exact Except.noConfusion h
          | ok t =>
            simp only [hrec, Except.ok.injEq] at h
            subst h
            have ht : braceFree t = true := ih rest t hrec
            rw [braceFree_cons, ht]
            simp [notBrace, hc, hc2]

/-- Joining brace-free fragments with ampersands is brace-free. -/
theorem joinAmp_braceFree :
    ∀ (parts : List (List Char)), (∀ x, x ∈ parts → braceFree x = true) →
      braceFree (joinAmp parts) = true := by
  intro parts
  induction parts with
  | nil => intro _; rfl
  | cons x xs ih =>
    intro hall
    cases xs with
    | nil =>
      simp only [joinAmp]
      exact hall x (by simp)
    | cons y ys =>
      simp only [joinAmp]
      rw [braceFree_append, hall x (by simp)]
      have hrest : braceFree (joinAmp (y :: ys)) = true :=
        ih (fun z hz => hall z (by simp [hz]))
      rw [braceFree_cons, hrest]
      decide

/-- The query string built from brace-free fragments is brace-free. -/
theorem queryChars_braceFree (parts : List (List Char))
    (hall : ∀ x, x ∈ parts → braceFree x = true) :
    braceFree (queryChars parts) = true := by
  cases parts with
  | nil => rfl
  | cons x xs =>
    simp only [queryChars]
    rw [braceFree_cons, joinAmp_braceFree (x :: xs) hall]
    decide

/-- Every query fragment produced by `queryParts` is brace-free: it consists
of percent-encoded pieces around an equals sign. -/
theorem queryParts_braceFree {β : Type} (d : EndpointSpec β) (i : RequestInputs) :
    ∀ x, x ∈ queryParts d i → braceFree x = true := by
  intro x hx
  unfold queryParts at hx
  obtain ⟨p, hp, hfx⟩ := List.mem_filterMap.mp hx
  by_cases hl : p.location = ParamLocation.query
  · rw [if_pos hl] at hfx
    obtain ⟨v, hv, hxeq⟩ := Option.map_eq_some'.mp hfx
    subst hxeq
    rw [braceFree_append, escapeChars_braceFree, braceFree_cons, escapeChars_braceFree]
    decide
  · rw [if_neg hl] at hfx
    exact Option.noConfusion hfx

/-- Every value the path-interpolation lookup produces is brace-free, being
the URL-escaped string form of a supplied value. -/
theorem pathLookup_braceFree {β : Type} (d : EndpointSpec β) (i : RequestInputs) :
    ∀ n v, pathLookup d i n = some v → braceFree v.data = true := by
  intro n v h
  unfold pathLookup at h
  cases hf : d.parameters.find? (fun p =>
      decide (p.name = n) && decide (p.location = ParamLocation.path)) with
  | none => rw [hf] at h; exact Option.noConfusion h
  | some p =>
    rw [hf] at h
    obtain ⟨w, hw, hveq⟩ := Option.map_eq_some'.mp h
    subst hveq
    exact escapeChars_braceFree (stringForm w).data

/-- Claim C7: a successfully resolved request has a path free of brace
characters: every placeholder has been substituted with the URL-escaped
string form of the matching path parameter's value, and the appended query
string is escaped as well. -/
theorem resolved_path_has_no_braces {β : Type} (d : EndpointSpec β) (i : RequestInputs)
    (r : ResolvedRequest) (h : resolveRequest d i = Except.ok r) :
    braceFree r.path.data = true := by
  unfold resolveRequest at h
  cases h1 : firstMissingRequired d.parameters i with
  | some n => rw [h1] at h; exact Except.noConfusion h
  | none =>
    rw [h1] at h
    cases h2 : firstUnknown d.parameters i with
    | some n => rw [h2] at h; exact Except.noConfusion h
    | none =>
      rw [h2] at h
      cases h3 : firstSchemaMismatch d.parameters i with
      | some n => rw [h3] at h; exact Except.noConfusion h
      | none =>
        rw [h3] at h
        by_cases h4 : i.body.isSome ≠ d.request.body.isSome
        · rw [if_pos h4] at h; exact Except.noConfusion h
        · rw [if_neg h4] at h
          cases h5 : substPath (pathLookup d i) d.path.data with
          | error e =>
            cases e with
            | strayBrace => rw [h5] at h; exact Except.noConfusion h
            | noValue n => rw [h5] at h; exact Except.noConfusion h
          | ok chars =>
            rw [h5] at h
            cases h
            show braceFree (chars ++ queryChars (queryParts d i)) = true
            have hc : braceFree chars = true :=
              substPathAux_braceFree (pathLookup d i) (pathLookup_braceFree d i)
                (d.path.data.length + 1) d.path.data chars h5
            have hq : braceFree (queryChars (queryParts d i)) = true :=
              queryChars_braceFree (queryParts d i) (queryParts_braceFree d i)
            rw [braceFree_append, hc, hq]
            rfl

/-- Witness for C7: getUser with the specification's example inputs resolves
to the path /users/abc-123, which contains no braces. -/
theorem resolved_path_has_no_braces_witness :
    resolveRequest (getUser Unit) exampleInputs = Except.ok exampleResolved ∧
    braceFree exampleResolved.path.data = true := by
  constructor
  · rfl
  · exact resolved_path_has_no_braces (getUser Unit) exampleInputs exampleResolved (by rfl)

end NotionSpecs
